import Mathlib

/-
Shallow embedding of the Musolang interpreter (src/musolang.py).

Modelling conventions:
* A classified frequency token is modelled by its numeric value alone, as a
  rational number.  The source's Frequency class carries timestamps, but its
  __eq__ and __hash__ use only the value, and no behaviour covered here
  depends on the timestamps.
* Python floats (np.float64) and ints are both modelled as rationals; the
  dynamically typed value slot of a Variable is the sum type PyVal.
* Every call to exit(1) in the source is modelled as returning an
  Except.error carrying the error kind of the corresponding diagnostic.
  An unguarded dict lookup that would raise KeyError is modelled as
  Err.KeyError; a binary value operation that would raise TypeError is
  modelled as Err.PyTypeError; input() at end of stream as Err.EOFError.
* Python's str() applied to a stored value is modelled by pyStr; the exact
  decimal text of a float is rendered by renderNum ("42.0" style).  No
  theorem below depends on the precise digits, only on which constructor
  the resulting value uses.
-/

namespace Musolang

/-- Action frequency constants (src/musolang.py lines 9-20). -/
def FREQ_IMMEDIATE : ℚ := 50

def FREQ_PRINT : ℚ := 110

def FREQ_ADD : ℚ := 140

def FREQ_SUB : ℚ := 170

def FREQ_MULT : ℚ := 220

def FREQ_DIV : ℚ := 260

def FREQ_CYCLE_TYPE : ℚ := 310

def FREQ_STR_DEF : ℚ := 390

def FREQ_INPUT : ℚ := 500

def FREQ_FUNC_DEF : ℚ := 600

def FREQ_FUNC_EXEC : ℚ := 660

def FREQ_VAR_INIT : ℚ := 700

/-- The FREQ_ARGS dict (lines 23-36): required argument count per opcode.
Total function; returns 0 on non-opcode values, which the source never
looks up (FREQ_ARGS is only indexed by recognized action frequencies). -/
def FREQ_ARGS (v : ℚ) : ℕ :=
  if v = FREQ_IMMEDIATE then 2
  else if v = FREQ_PRINT then 1
  else if v = FREQ_ADD then 3
  else if v = FREQ_SUB then 3
  else if v = FREQ_MULT then 3
  else if v = FREQ_DIV then 3
  else if v = FREQ_CYCLE_TYPE then 1
  else if v = FREQ_STR_DEF then 1
  else if v = FREQ_INPUT then 1
  else if v = FREQ_FUNC_DEF then 1
  else if v = FREQ_FUNC_EXEC then 1
  else if v = FREQ_VAR_INIT then 1
  else 0

/-- Frequency.is_action_frequency (lines 87-100). -/
def isActionFrequency (v : ℚ) : Bool :=
  decide (v = FREQ_IMMEDIATE) || decide (v = FREQ_PRINT) || decide (v = FREQ_ADD) ||
  decide (v = FREQ_SUB) || decide (v = FREQ_MULT) || decide (v = FREQ_DIV) ||
  decide (v = FREQ_CYCLE_TYPE) || decide (v = FREQ_STR_DEF) || decide (v = FREQ_INPUT) ||
  decide (v = FREQ_FUNC_DEF) || decide (v = FREQ_FUNC_EXEC) || decide (v = FREQ_VAR_INIT)

/-- Frequency.is_encasing (lines 102-105). -/
def isEncasing (v : ℚ) : Bool :=
  decide (v = FREQ_STR_DEF) || decide (v = FREQ_FUNC_DEF)

/-- VariableType enum (lines 38-41). -/
inductive VariableType where
  | NUMBER
  | STRING
  | FUNCTION
deriving DecidableEq, Repr

/-- The Action class (lines 43-78): an opcode frequency value, its raw (or,
after parse_arguments, resolved) operand token values, and the statically
required argument count. -/
structure Action where
  frequency : ℚ
  arguments : List ℚ
  req_arguments : ℕ
deriving DecidableEq, Repr

/-- The dynamically typed value slot of a Variable: a Python float, a
Python str, or a list of Actions. -/
inductive PyVal where
  | num (q : ℚ)
  | str (s : String)
  | func (body : List Action)
deriving DecidableEq, Repr

/-- The Variable class (lines 118-129). -/
structure Variable where
  frequency : ℚ
  type : VariableType
  value : PyVal
deriving DecidableEq, Repr

/-- Variable.is_valid (lines 126-129): the stored value's runtime
representation matches the type tag. -/
def Variable.is_valid (v : Variable) : Bool :=
  match v.type, v.value with
  | VariableType.NUMBER, PyVal.num _ => true
  | VariableType.STRING, PyVal.str _ => true
  | VariableType.FUNCTION, PyVal.func _ => true
  | _, _ => false

/-- The symbol table: Python dict keyed by frequency value, modelled as an
insertion-ordered association list with unique keys. -/
def tblGet : List (ℚ × Variable) → ℚ → Option Variable
  | [], _ => none
  | (k, v) :: rest, q => if q = k then some v else tblGet rest q

/-- Python `q in symbol_table`. -/
def tblMem (st : List (ℚ × Variable)) (q : ℚ) : Bool :=
  (tblGet st q).isSome

/-- Python `symbol_table[q].value = x` (in-place mutation of the entry). -/
def tblSetValue (st : List (ℚ × Variable)) (q : ℚ) (x : PyVal) : List (ℚ × Variable) :=
  st.map fun kv => if kv.1 = q then (kv.1, { kv.2 with value := x }) else kv

/-- In-place mutation of a whole entry (used by CYCLE_TYPE, which assigns
both the type tag and the value of symbol_table[q]). -/
def tblModify (st : List (ℚ × Variable)) (q : ℚ) (f : Variable → Variable) :
    List (ℚ × Variable) :=
  st.map fun kv => if kv.1 = q then (kv.1, f kv.2) else kv

/-- Decimal rendering of a stored numeric value, modelling Python's str()
on the float ("42.0" for integral values).  No theorem depends on the
exact digits produced here. -/
def renderNum (q : ℚ) : String :=
  if q.den = 1 then toString q.num ++ ".0" else toString q

/-- Python str() applied to a stored value.  On text it is the identity;
the function branch is unreachable in the embedded code because every
caller rejects FUNCTION-typed variables first. -/
def pyStr : PyVal → String
  | PyVal.num q => renderNum q
  | PyVal.str s => s
  | PyVal.func _ => ""

/-- Error kinds, one per fatal exit(1) site of the source (spec section 7
taxonomy), plus the uncaught Python exceptions the source could raise:
KeyError (unguarded dict lookup), PyTypeError (binary operation on
mismatched runtime representations), EOFError (input() at end of stream).
UnparsableConversion is the kind of the except-ValueError branch at lines
243-245; that branch is dead code in the source (str of a str cannot
raise), so the embedded execute_cycle_type never produces it. -/
inductive Err where
  | ArityError
  | UndefinedVariable
  | DuplicateDeclaration
  | TypeMismatch
  | DivideByZero
  | UnparsableConversion
  | KeyError
  | PyTypeError
  | EOFError
deriving DecidableEq, Repr

/-- Machine state: the symbol table plus the observable channels (lines
waiting on standard input, lines written to standard output). -/
structure MachineState where
  symbol_table : List (ℚ × Variable)
  stdin : List String
  output : List String
deriving DecidableEq, Repr

/-- Action.is_valid (lines 71-72). -/
def Action.is_valid (a : Action) : Bool :=
  decide (a.req_arguments ≤ a.arguments.length)

/-- Loop body of Action.parse_arguments (lines 50-66); n counts the
accepted arguments so far (len(new_args)). -/
def parse_arguments_aux (st : List (ℚ × Variable)) (ig : Bool) (freq : ℚ) (req : ℕ) :
    List ℚ → ℕ → List ℚ
  | [], _ => []
  | arg :: rest, n =>
      if req ≤ n ∧ ¬isEncasing freq then []
      else if ¬tblMem st arg ∧ ig then parse_arguments_aux st ig freq req rest n
      else arg :: parse_arguments_aux st ig freq req rest (n + 1)

/-- Action.parse_arguments (lines 50-66): the resolved operand list. -/
def parse_arguments (st : List (ℚ × Variable)) (ig : Bool) (freq : ℚ) (req : ℕ)
    (args : List ℚ) : List ℚ :=
  parse_arguments_aux st ig freq req args 0

/-- Runtime addition (line 180): float addition, str concatenation, list
concatenation; anything else raises TypeError in Python. -/
def pyAddVal : PyVal → PyVal → Except Err PyVal
  | PyVal.num x, PyVal.num y => Except.ok (PyVal.num (x + y))
  | PyVal.str x, PyVal.str y => Except.ok (PyVal.str (x ++ y))
  | PyVal.func x, PyVal.func y => Except.ok (PyVal.func (x ++ y))
  | _, _ => Except.error Err.PyTypeError

/-- Runtime subtraction (line 195). -/
def pySubVal : PyVal → PyVal → Except Err PyVal
  | PyVal.num x, PyVal.num y => Except.ok (PyVal.num (x - y))
  | _, _ => Except.error Err.PyTypeError

/-- Runtime multiplication (line 210). -/
def pyMultVal : PyVal → PyVal → Except Err PyVal
  | PyVal.num x, PyVal.num y => Except.ok (PyVal.num (x * y))
  | _, _ => Except.error Err.PyTypeError

/-- Runtime division (line 229); rational division stands in for float
division (the divide-by-value-zero case, which Python maps to inf/nan, is
not relied on by any theorem below). -/
def pyDivVal : PyVal → PyVal → Except Err PyVal
  | PyVal.num x, PyVal.num y => Except.ok (PyVal.num (x / y))
  | _, _ => Except.error Err.PyTypeError

/-- execute_immediate (lines 136-149): stores operand[1]'s own token value
(a literal, not a lookup) into the Number variable named by operand[0]. -/
def execute_immediate (a : Action) (s : MachineState) : Except Err MachineState :=
  if ¬tblMem s.symbol_table (a.arguments.getD 0 0) then Except.error Err.UndefinedVariable
  else
    match tblGet s.symbol_table (a.arguments.getD 0 0) with
    | none => Except.error Err.KeyError
    | some v =>
        if v.type ≠ VariableType.NUMBER then Except.error Err.TypeMismatch
        else Except.ok { s with symbol_table := tblSetValue s.symbol_table (a.arguments.getD 0 0) (PyVal.num (a.arguments.getD 1 0)) }

/-- execute_print (lines 151-158): unguarded lookup, reject functions,
write str(value) plus a line terminator to standard output. -/
def execute_print (a : Action) (s : MachineState) : Except Err MachineState :=
  match tblGet s.symbol_table (a.arguments.getD 0 0) with
  | none => Except.error Err.KeyError
  | some v =>
      if v.type = VariableType.FUNCTION then Except.error Err.TypeMismatch
      else Except.ok { s with output := s.output ++ [pyStr v.value] }

/-- execute_add (lines 160-180). -/
def execute_add (a : Action) (s : MachineState) : Except Err MachineState :=
  match tblGet s.symbol_table (a.arguments.getD 0 0),
        tblGet s.symbol_table (a.arguments.getD 1 0),
        tblGet s.symbol_table (a.arguments.getD 2 0) with
  | some vs, some vl, some vr =>
      if vs.type ≠ vl.type ∨ vs.type ≠ vr.type then Except.error Err.TypeMismatch
      else if vs.type = VariableType.FUNCTION ∨ vl.type = VariableType.FUNCTION ∨
          vr.type = VariableType.FUNCTION then Except.error Err.TypeMismatch
      else
        match pyAddVal vl.value vr.value with
        | Except.ok x =>
            Except.ok { s with symbol_table := tblSetValue s.symbol_table (a.arguments.getD 0 0) x }
        | Except.error e => Except.error e
  | _, _, _ => Except.error Err.KeyError

/-- execute_sub (lines 182-195). -/
def execute_sub (a : Action) (s : MachineState) : Except Err MachineState :=
  match tblGet s.symbol_table (a.arguments.getD 0 0),
        tblGet s.symbol_table (a.arguments.getD 1 0),
        tblGet s.symbol_table (a.arguments.getD 2 0) with
  | some vs, some vl, some vr =>
      if vs.type ≠ VariableType.NUMBER ∨ vl.type ≠ VariableType.NUMBER ∨
          vr.type ≠ VariableType.NUMBER then Except.error Err.TypeMismatch
      else
        match pySubVal vl.value vr.value with
        | Except.ok x =>
            Except.ok { s with symbol_table := tblSetValue s.symbol_table (a.arguments.getD 0 0) x }
        | Except.error e => Except.error e
  | _, _, _ => Except.error Err.KeyError

/-- execute_mult (lines 197-210). -/
def execute_mult (a : Action) (s : MachineState) : Except Err MachineState :=
  match tblGet s.symbol_table (a.arguments.getD 0 0),
        tblGet s.symbol_table (a.arguments.getD 1 0),
        tblGet s.symbol_table (a.arguments.getD 2 0) with
  | some vs, some vl, some vr =>
      if vs.type ≠ VariableType.NUMBER ∨ vl.type ≠ VariableType.NUMBER ∨
          vr.type ≠ VariableType.NUMBER then Except.error Err.TypeMismatch
      else
        match pyMultVal vl.value vr.value with
        | Except.ok x =>
            Except.ok { s with symbol_table := tblSetValue s.symbol_table (a.arguments.getD 0 0) x }
        | Except.error e => Except.error e
  | _, _, _ => Except.error Err.KeyError

/-- execute_div (lines 212-229).  Note line 225: the zero test compares
the RIGHT OPERAND TOKEN itself (Frequency.__eq__ compares the frequency
value) to 0, not the variable's stored numeric value. -/
def execute_div (a : Action) (s : MachineState) : Except Err MachineState :=
  match tblGet s.symbol_table (a.arguments.getD 0 0),
        tblGet s.symbol_table (a.arguments.getD 1 0),
        tblGet s.symbol_table (a.arguments.getD 2 0) with
  | some vs, some vl, some vr =>
      if vs.type ≠ VariableType.NUMBER ∨ vl.type ≠ VariableType.NUMBER ∨
          vr.type ≠ VariableType.NUMBER then Except.error Err.TypeMismatch
      else if a.arguments.getD 2 0 = 0 then Except.error Err.DivideByZero
      else
        match pyDivVal vl.value vr.value with
        | Except.ok x =>
            Except.ok { s with symbol_table := tblSetValue s.symbol_table (a.arguments.getD 0 0) x }
        | Except.error e => Except.error e
  | _, _, _ => Except.error Err.KeyError

/-- execute_cycle_type (lines 231-249).  The source's STRING branch
assigns str(value) — NOT float(value) — so the stored text is kept
unchanged while the tag becomes NUMBER, and the except-ValueError branch
(the UnparsableConversion diagnostic) can never fire. -/
def execute_cycle_type (a : Action) (s : MachineState) : Except Err MachineState :=
  match tblGet s.symbol_table (a.arguments.getD 0 0) with
  | none => Except.error Err.KeyError
  | some v =>
      match v.type with
      | VariableType.NUMBER =>
          Except.ok { s with symbol_table := tblModify s.symbol_table (a.arguments.getD 0 0) (fun w => { w with type := VariableType.STRING, value := PyVal.str (pyStr w.value) }) }
      | VariableType.STRING =>
          Except.ok { s with symbol_table := tblModify s.symbol_table (a.arguments.getD 0 0) (fun w => { w with type := VariableType.NUMBER, value := PyVal.str (pyStr w.value) }) }
      | VariableType.FUNCTION => Except.error Err.TypeMismatch

/-- execute_str_def (lines 251-252): a no-op stub. -/
def execute_str_def (_a : Action) (s : MachineState) : Except Err MachineState :=
  Except.ok s

/-- execute_input (lines 254-262): unguarded lookup; the target must be
String-typed; stores one line read from standard input. -/
def execute_input (a : Action) (s : MachineState) : Except Err MachineState :=
  match tblGet s.symbol_table (a.arguments.getD 0 0) with
  | none => Except.error Err.KeyError
  | some v =>
      if v.type ≠ VariableType.STRING then Except.error Err.TypeMismatch
      else
        match s.stdin with
        | [] => Except.error Err.EOFError
        | line :: rest =>
            Except.ok { s with symbol_table := tblSetValue s.symbol_table (a.arguments.getD 0 0) (PyVal.str line), stdin := rest }

/-- execute_func_def (lines 264-265): a no-op stub. -/
def execute_func_def (_a : Action) (s : MachineState) : Except Err MachineState :=
  Except.ok s

/-- execute_func_exec (lines 267-268): a no-op stub. -/
def execute_func_exec (_a : Action) (s : MachineState) : Except Err MachineState :=
  Except.ok s

/-- execute_var_init (lines 270-278): declares the operand as a fresh
Number variable with value 0. -/
def execute_var_init (a : Action) (s : MachineState) : Except Err MachineState :=
  if tblMem s.symbol_table (a.arguments.getD 0 0) then Except.error Err.DuplicateDeclaration
  else
    Except.ok { s with symbol_table := s.symbol_table ++ [(a.arguments.getD 0 0, Variable.mk (a.arguments.getD 0 0) VariableType.NUMBER (PyVal.num 0))] }

/-- The ignore_undefined policy computed in main (line 354). -/
def mainIgnoreUndefined (freq : ℚ) : Bool :=
  !isEncasing freq && !(decide (freq = FREQ_VAR_INIT)) && !(decide (freq = FREQ_IMMEDIATE))

/-- Resolution of one Action against the live symbol table, as main does
at line 355: parse_arguments with the main-loop ignore_undefined policy. -/
def resolveAction (st : List (ℚ × Variable)) (a : Action) : Action :=
  { a with arguments := parse_arguments st (mainIgnoreUndefined a.frequency) a.frequency a.req_arguments a.arguments }

/-- The opcode dispatch chain of main (lines 363-397).  A frequency
matching no branch falls through and does nothing (unreachable for
decoded actions, which always carry a recognized opcode). -/
def dispatch (r : Action) (s : MachineState) : Except Err MachineState :=
  if r.frequency = FREQ_IMMEDIATE then execute_immediate r s
  else if r.frequency = FREQ_PRINT then execute_print r s
  else if r.frequency = FREQ_ADD then execute_add r s
  else if r.frequency = FREQ_SUB then execute_sub r s
  else if r.frequency = FREQ_MULT then execute_mult r s
  else if r.frequency = FREQ_DIV then execute_div r s
  else if r.frequency = FREQ_CYCLE_TYPE then execute_cycle_type r s
  else if r.frequency = FREQ_STR_DEF then execute_str_def r s
  else if r.frequency = FREQ_INPUT then execute_input r s
  else if r.frequency = FREQ_FUNC_DEF then execute_func_def r s
  else if r.frequency = FREQ_FUNC_EXEC then execute_func_exec r s
  else if r.frequency = FREQ_VAR_INIT then execute_var_init r s
  else Except.ok s

/-- One iteration of main's execution loop (lines 353-397): resolve the
action's arguments against the live symbol table, abort with ArityError
when invalid (line 359-360 exit), otherwise dispatch to the handler. -/
def step (a : Action) (s : MachineState) : Except Err MachineState :=
  if !(resolveAction s.symbol_table a).is_valid then Except.error Err.ArityError
  else dispatch (resolveAction s.symbol_table a) s

/-- main's execution loop over the decoded action list; the first error
aborts the run (every exit(1) site stops the process). -/
def run : List Action → MachineState → Except Err MachineState
  | [], s => Except.ok s
  | a :: rest, s =>
      match step a s with
      | Except.ok s2 => run rest s2
      | Except.error e => Except.error e

/-- The decoder loop of main (lines 327-347), written as the equivalent
single left-to-right pass.  The second argument is the currently open
instruction (opening opcode and operands collected so far), mirroring the
nested while loop: while an instruction is open, a non-matching token is
appended; for a non-encasing opener any action frequency closes it
without being consumed (it opens the next instruction); for an encasing
opener only a recurrence of the same value closes it, and that closing
token is consumed and excluded.  At end of input an open instruction is
emitted with the operands collected so far. -/
def decodeAux : List ℚ → Option (ℚ × List ℚ) → List Action
  | [], none => []
  | [], some (f, args) => [Action.mk f args (FREQ_ARGS f)]
  | t :: rest, none =>
      if isActionFrequency t then decodeAux rest (some (t, []))
      else decodeAux rest none
  | t :: rest, some (f, args) =>
      if isActionFrequency t ∧ ¬isEncasing f then
        Action.mk f args (FREQ_ARGS f) :: decodeAux rest (some (t, []))
      else if f = t ∧ isEncasing f then
        Action.mk f args (FREQ_ARGS f) :: decodeAux rest none
      else decodeAux rest (some (f, args ++ [t]))

/-- The decoder: classified token values in, Action list out. -/
def decode (tokens : List ℚ) : List Action :=
  decodeAux tokens none

/-- The machine state at program start: empty symbol table (line 349),
the given pending standard-input lines, nothing printed yet. -/
def initState (stdin : List String) : MachineState :=
  MachineState.mk [] stdin []

/-- Whole-program semantics: decode the token stream, then execute. -/
def runProgram (tokens : List ℚ) (stdin : List String) : Except Err MachineState :=
  run (decode tokens) (initState stdin)

/- ------------------------------------------------------------------ -/
/- Helper lemmas                                                       -/
/- ------------------------------------------------------------------ -/

/-- An encasing frequency is a recognized action frequency. -/
theorem isActionFrequency_of_isEncasing (v : ℚ) (h : isEncasing v = true) :
    isActionFrequency v = true := by
  have hv : v = FREQ_STR_DEF ∨ v = FREQ_FUNC_DEF := by
    simpa [isEncasing] using h
  rcases hv with h1 | h1 <;> subst h1 <;> rfl

/-- Membership in the table yields a successful lookup. -/
theorem tblGet_isSome_exists (st : List (ℚ × Variable)) (q : ℚ) (h : tblMem st q = true) :
    ∃ v, tblGet st q = some v := by
  unfold tblMem at h
  exact Option.isSome_iff_exists.mp h

/-- An in-bounds getD is an element of the list. -/
theorem getD_mem_of_lt (l : List ℚ) (i : ℕ) (h : i < l.length) : l.getD i 0 ∈ l := by
  induction l generalizing i with
  | nil => simp at h
  | cons a l ih =>
    cases i with
    | zero => simp
    | succ i =>
      rw [List.getD_cons_succ]
      exact List.mem_cons_of_mem a (ih i (by simpa using h))

/-- With ignore_undefined true, every surviving resolved operand is a key
of the symbol table used for resolution. -/
theorem parse_arguments_aux_all_mem (st : List (ℚ × Variable)) (freq : ℚ) (req : ℕ) :
    ∀ (args : List ℚ) (n : ℕ) (x : ℚ),
      x ∈ parse_arguments_aux st true freq req args n → tblMem st x = true := by
  intro args
  induction args with
  | nil =>
    intro n x hx
    simp [parse_arguments_aux] at hx
  | cons arg rest ih =>
    intro n x hx
    rw [parse_arguments_aux] at hx
    split at hx
    · simp at hx
    · split at hx
      · exact ih n x hx
      · rename_i hc
        rcases List.mem_cons.mp hx with h | h
        · subst h
          by_contra hm
          exact hc ⟨hm, rfl⟩
        · exact ih (n + 1) x h

/-- For a non-encasing opcode, parse_arguments_aux keeps exactly the first
(req - n) raw operands that pass the ignore_undefined filter, in order. -/
theorem parse_arguments_aux_filter (st : List (ℚ × Variable)) (ig : Bool) (freq : ℚ)
    (req : ℕ) (henc : isEncasing freq = false) :
    ∀ (args : List ℚ) (n : ℕ),
      parse_arguments_aux st ig freq req args n =
        ((args.filter fun a => tblMem st a || !ig).take (req - n)) := by
  intro args
  induction args with
  | nil =>
    intro n
    simp [parse_arguments_aux]
  | cons arg rest ih =>
    intro n
    rw [parse_arguments_aux]
    by_cases hn : req ≤ n
    · rw [if_pos ⟨hn, by simp [henc]⟩, Nat.sub_eq_zero_of_le hn, List.take_zero]
    · rw [if_neg (by simp [hn])]
      have hstep : req - n = (req - (n + 1)) + 1 := by omega
      by_cases hm : tblMem st arg = true
      · rw [if_neg (by simp [hm])]
        rw [List.filter_cons_of_pos (by simp [hm])]
        rw [ih (n + 1), hstep, List.take_succ_cons]
      · by_cases hig : ig = true
        · rw [if_pos ⟨hm, hig⟩]
          rw [List.filter_cons_of_neg (by simp [hm, hig])]
          exact ih n
        · rw [if_neg (by simp [hig])]
          rw [List.filter_cons_of_pos (by simp [hig])]
          rw [ih (n + 1), hstep, List.take_succ_cons]

/-- Inside an open encasing instruction, tokens different from the opening
value are appended as inert payload until the opening value recurs; the
closing token is consumed and the instruction is emitted. -/
theorem decodeAux_encasing_closes (E : ℚ) (hE : isEncasing E = true) :
    ∀ (ts : List ℚ), (∀ t ∈ ts, t ≠ E) → ∀ (acc rest : List ℚ),
      decodeAux (ts ++ E :: rest) (some (E, acc)) =
        Action.mk E (acc ++ ts) (FREQ_ARGS E) :: decodeAux rest none := by
  intro ts
  induction ts with
  | nil =>
    intro _ acc rest
    rw [List.nil_append, decodeAux]
    rw [if_neg (by simp [hE]), if_pos ⟨rfl, hE⟩, List.append_nil]
  | cons t ts ih =>
    intro h acc rest
    have ht : t ≠ E := h t (List.mem_cons_self t ts)
    rw [List.cons_append, decodeAux]
    rw [if_neg (by simp [hE])]
    rw [if_neg (fun hc => ht hc.1.symm)]
    rw [ih (fun x hx => h x (List.mem_cons_of_mem t hx)) (acc ++ [t]) rest]
    simp

/-- pyDivVal can fail only with PyTypeError, never DivideByZero. -/
theorem pyDivVal_ne_dbz (x y : PyVal) : pyDivVal x y ≠ Except.error Err.DivideByZero := by
  cases x <;> cases y <;> simp [pyDivVal]

/-- Every error of pyAddVal is PyTypeError. -/
theorem pyAddVal_error_eq (x y : PyVal) (e : Err) (h : pyAddVal x y = Except.error e) :
    e = Err.PyTypeError := by
  cases x <;> cases y <;> simp [pyAddVal] at h <;> exact h.symm

/-- Every error of pySubVal is PyTypeError. -/
theorem pySubVal_error_eq (x y : PyVal) (e : Err) (h : pySubVal x y = Except.error e) :
    e = Err.PyTypeError := by
  cases x <;> cases y <;> simp [pySubVal] at h <;> exact h.symm

/-- Every error of pyMultVal is PyTypeError. -/
theorem pyMultVal_error_eq (x y : PyVal) (e : Err) (h : pyMultVal x y = Except.error e) :
    e = Err.PyTypeError := by
  cases x <;> cases y <;> simp [pyMultVal] at h <;> exact h.symm

/-- Every error of pyDivVal is PyTypeError. -/
theorem pyDivVal_error_eq (x y : PyVal) (e : Err) (h : pyDivVal x y = Except.error e) :
    e = Err.PyTypeError := by
  cases x <;> cases y <;> simp [pyDivVal] at h <;> exact h.symm

/-- execute_print cannot raise KeyError when its operand is in the table. -/
theorem execute_print_ne_keyerror (a : Action) (s : MachineState)
    (hmem : ∀ x ∈ a.arguments, tblMem s.symbol_table x = true)
    (hlen : 1 ≤ a.arguments.length) :
    execute_print a s ≠ Except.error Err.KeyError := by
  obtain ⟨v, hv⟩ := tblGet_isSome_exists _ _ (hmem _ (getD_mem_of_lt _ 0 hlen))
  unfold execute_print
  rw [hv]
  dsimp only
  split <;> simp

/-- execute_add cannot raise KeyError when its operands are in the table. -/
theorem execute_add_ne_keyerror (a : Action) (s : MachineState)
    (hmem : ∀ x ∈ a.arguments, tblMem s.symbol_table x = true)
    (hlen : 3 ≤ a.arguments.length) :
    execute_add a s ≠ Except.error Err.KeyError := by
  obtain ⟨v0, h0⟩ := tblGet_isSome_exists _ _ (hmem _ (getD_mem_of_lt _ 0 (by omega)))
  obtain ⟨v1, h1⟩ := tblGet_isSome_exists _ _ (hmem _ (getD_mem_of_lt _ 1 (by omega)))
  obtain ⟨v2, h2⟩ := tblGet_isSome_exists _ _ (hmem _ (getD_mem_of_lt _ 2 (by omega)))
  unfold execute_add
  rw [h0, h1, h2]
  dsimp only
  split
  · simp
  · split
    · simp
    · rcases hpv : pyAddVal v1.value v2.value with x | e
      · rw [pyAddVal_error_eq v1.value v2.value x hpv]
        simp
      · simp

/-- execute_sub cannot raise KeyError when its operands are in the table. -/
theorem execute_sub_ne_keyerror (a : Action) (s : MachineState)
    (hmem : ∀ x ∈ a.arguments, tblMem s.symbol_table x = true)
    (hlen : 3 ≤ a.arguments.length) :
    execute_sub a s ≠ Except.error Err.KeyError := by
  obtain ⟨v0, h0⟩ := tblGet_isSome_exists _ _ (hmem _ (getD_mem_of_lt _ 0 (by omega)))
  obtain ⟨v1, h1⟩ := tblGet_isSome_exists _ _ (hmem _ (getD_mem_of_lt _ 1 (by omega)))
  obtain ⟨v2, h2⟩ := tblGet_isSome_exists _ _ (hmem _ (getD_mem_of_lt _ 2 (by omega)))
  unfold execute_sub
  rw [h0, h1, h2]
  dsimp only
  split
  · simp
  · rcases hpv : pySubVal v1.value v2.value with x | e
    · rw [pySubVal_error_eq v1.value v2.value x hpv]
      simp
    · simp

/-- execute_mult cannot raise KeyError when its operands are in the table. -/
theorem execute_mult_ne_keyerror (a : Action) (s : MachineState)
    (hmem : ∀ x ∈ a.arguments, tblMem s.symbol_table x = true)
    (hlen : 3 ≤ a.arguments.length) :
    execute_mult a s ≠ Except.error Err.KeyError := by
  obtain ⟨v0, h0⟩ := tblGet_isSome_exists _ _ (hmem _ (getD_mem_of_lt _ 0 (by omega)))
  obtain ⟨v1, h1⟩ := tblGet_isSome_exists _ _ (hmem _ (getD_mem_of_lt _ 1 (by omega)))
  obtain ⟨v2, h2⟩ := tblGet_isSome_exists _ _ (hmem _ (getD_mem_of_lt _ 2 (by omega)))
  unfold execute_mult
  rw [h0, h1, h2]
  dsimp only
  split
  · simp
  · rcases hpv : pyMultVal v1.value v2.value with x | e
    · rw [pyMultVal_error_eq v1.value v2.value x hpv]
      simp
    · simp

/-- execute_div cannot raise KeyError when its operands are in the table. -/
theorem execute_div_ne_keyerror (a : Action) (s : MachineState)
    (hmem : ∀ x ∈ a.arguments, tblMem s.symbol_table x = true)
    (hlen : 3 ≤ a.arguments.length) :
    execute_div a s ≠ Except.error Err.KeyError := by
  obtain ⟨v0, h0⟩ := tblGet_isSome_exists _ _ (hmem _ (getD_mem_of_lt _ 0 (by omega)))
  obtain ⟨v1, h1⟩ := tblGet_isSome_exists _ _ (hmem _ (getD_mem_of_lt _ 1 (by omega)))
  obtain ⟨v2, h2⟩ := tblGet_isSome_exists _ _ (hmem _ (getD_mem_of_lt _ 2 (by omega)))
  unfold execute_div
  rw [h0, h1, h2]
  dsimp only
  split
  · simp
  · split
    · simp
    · rcases hpv : pyDivVal v1.value v2.value with x | e
      · rw [pyDivVal_error_eq v1.value v2.value x hpv]
        simp
      · simp

/-- execute_cycle_type cannot raise KeyError when its operand is in the
table. -/
theorem execute_cycle_type_ne_keyerror (a : Action) (s : MachineState)
    (hmem : ∀ x ∈ a.arguments, tblMem s.symbol_table x = true)
    (hlen : 1 ≤ a.arguments.length) :
    execute_cycle_type a s ≠ Except.error Err.KeyError := by
  obtain ⟨v, hv⟩ := tblGet_isSome_exists _ _ (hmem _ (getD_mem_of_lt _ 0 hlen))
  unfold execute_cycle_type
  rw [hv]
  dsimp only
  split <;> simp

/-- execute_input cannot raise KeyError when its operand is in the table. -/
theorem execute_input_ne_keyerror (a : Action) (s : MachineState)
    (hmem : ∀ x ∈ a.arguments, tblMem s.symbol_table x = true)
    (hlen : 1 ≤ a.arguments.length) :
    execute_input a s ≠ Except.error Err.KeyError := by
  obtain ⟨v, hv⟩ := tblGet_isSome_exists _ _ (hmem _ (getD_mem_of_lt _ 0 hlen))
  unfold execute_input
  rw [hv]
  dsimp only
  split
  · simp
  · split <;> simp

/-- The dispatch chain never produces KeyError for an action resolved
under the ignore_undefined-true policy, whose required arity is the
opcode's FREQ_ARGS entry and whose resolved operands all name table
entries. -/
theorem dispatch_ne_keyerror (r : Action) (s : MachineState)
    (hig : mainIgnoreUndefined r.frequency = true)
    (hmem : ∀ x ∈ r.arguments, tblMem s.symbol_table x = true)
    (hlen : FREQ_ARGS r.frequency ≤ r.arguments.length) :
    dispatch r s ≠ Except.error Err.KeyError := by
  unfold dispatch
  by_cases h1 : r.frequency = FREQ_IMMEDIATE
  · rw [h1] at hig
    exact absurd hig (by decide)
  rw [if_neg h1]
  by_cases h2 : r.frequency = FREQ_PRINT
  · rw [if_pos h2]
    refine execute_print_ne_keyerror r s hmem ?_
    rw [h2] at hlen
    exact hlen
  rw [if_neg h2]
  by_cases h3 : r.frequency = FREQ_ADD
  · rw [if_pos h3]
    refine execute_add_ne_keyerror r s hmem ?_
    rw [h3] at hlen
    exact hlen
  rw [if_neg h3]
  by_cases h4 : r.frequency = FREQ_SUB
  · rw [if_pos h4]
    refine execute_sub_ne_keyerror r s hmem ?_
    rw [h4] at hlen
    exact hlen
  rw [if_neg h4]
  by_cases h5 : r.frequency = FREQ_MULT
  · rw [if_pos h5]
    refine execute_mult_ne_keyerror r s hmem ?_
    rw [h5] at hlen
    exact hlen
  rw [if_neg h5]
  by_cases h6 : r.frequency = FREQ_DIV
  · rw [if_pos h6]
    refine execute_div_ne_keyerror r s hmem ?_
    rw [h6] at hlen
    exact hlen
  rw [if_neg h6]
  by_cases h7 : r.frequency = FREQ_CYCLE_TYPE
  · rw [if_pos h7]
    refine execute_cycle_type_ne_keyerror r s hmem ?_
    rw [h7] at hlen
    exact hlen
  rw [if_neg h7]
  by_cases h8 : r.frequency = FREQ_STR_DEF
  · rw [h8] at hig
    exact absurd hig (by decide)
  rw [if_neg h8]
  by_cases h9 : r.frequency = FREQ_INPUT
  · rw [if_pos h9]
    refine execute_input_ne_keyerror r s hmem ?_
    rw [h9] at hlen
    exact hlen
  rw [if_neg h9]
  by_cases h10 : r.frequency = FREQ_FUNC_DEF
  · rw [h10] at hig
    exact absurd hig (by decide)
  rw [if_neg h10]
  by_cases h11 : r.frequency = FREQ_FUNC_EXEC
  · rw [if_pos h11]
    simp [execute_func_exec]
  rw [if_neg h11]
  by_cases h12 : r.frequency = FREQ_VAR_INIT
  · rw [h12] at hig
    exact absurd hig (by decide)
  rw [if_neg h12]
  simp

/- ------------------------------------------------------------------ -/
/- Claim theorems                                                      -/
/- ------------------------------------------------------------------ -/

/-- Claim C1 (refuted; the code contradicts its own intent).  The claim
says CYCLE_TYPE on a String variable parses the text as a float and
raises UnparsableConversion on unparsable text.  The source instead
applies str() (line 242), which is the identity on text: on the reachable
state where variable 10 is String-typed and holds the unparsable text
"abc" (declared, cycled to String, filled by INPUT), a final CYCLE_TYPE
completes successfully with exit status 0, retags the variable Number and
leaves the text "abc" stored unchanged — no numeric value is stored and
no error is raised. -/
theorem claim_cycle_type_string_applies_str_not_float :
    runProgram [700, 10, 310, 10, 500, 10, 310, 10] ["abc"] =
      Except.ok (MachineState.mk
        [(10, Variable.mk 10 VariableType.NUMBER (PyVal.str "abc"))] [] []) :=
  rfl

/-- Claim C2 (refuted; the code contradicts its own intent).  Starting
from a Number variable holding 42 — whose textual rendering "42.0" is
exactly re-parseable — two CYCLE_TYPE executions retag the variable
Number but leave the STRING rendering "42.0" as the stored value, which
is not a number equal to 42. -/
theorem claim_double_cycle_does_not_restore_number :
    run [Action.mk FREQ_CYCLE_TYPE [20] 1, Action.mk FREQ_CYCLE_TYPE [20] 1]
        (MachineState.mk [(20, Variable.mk 20 VariableType.NUMBER (PyVal.num 42))] [] []) =
      Except.ok (MachineState.mk
        [(20, Variable.mk 20 VariableType.NUMBER (PyVal.str "42.0"))] [] []) ∧
    PyVal.str "42.0" ≠ PyVal.num 42 :=
  ⟨rfl, by decide⟩

/-- Claim C3 (refuted; the code contradicts its own Variable.is_valid).
From the empty table, the stream VAR_INIT 10, CYCLE_TYPE 10, CYCLE_TYPE 10
reaches a state whose single Variable is tagged Number yet stores text,
failing the representation invariant Variable.is_valid. -/
theorem claim_invariant_violated_reachable :
    runProgram [700, 10, 310, 10, 310, 10] [] =
      Except.ok (MachineState.mk
        [(10, Variable.mk 10 VariableType.NUMBER (PyVal.str "0.0"))] [] []) ∧
    (Variable.mk 10 VariableType.NUMBER (PyVal.str "0.0")).is_valid = false :=
  ⟨rfl, rfl⟩

/-- Claim C4: for any encasing opcode E and stream E, t1..tn, E, rest with
no ti equal to E, the decoder emits one Instruction with opcode E and
operands exactly t1..tn (the closing E consumed and excluded), and
decoding continues on rest; ti equal to other reserved opcode values are
inert payload. -/
theorem claim_encasing_bracket_decode (E : ℚ) (ts rest : List ℚ)
    (hE : isEncasing E = true) (hts : ∀ t ∈ ts, t ≠ E) :
    decode (E :: (ts ++ E :: rest)) =
      Action.mk E ts (FREQ_ARGS E) :: decode rest := by
  have hact : isActionFrequency E = true := isActionFrequency_of_isEncasing E hE
  rw [decode, decodeAux, if_pos hact]
  have h := decodeAux_encasing_closes E hE ts hts [] rest
  rw [List.nil_append] at h
  rw [h, decode]

/-- Witness for C4: STR_DEF payload containing the ADD opcode value. -/
theorem claim_encasing_bracket_decode_witness :
    decode ((390 : ℚ) :: ([10, 140] ++ 390 :: [110, 5])) =
      Action.mk 390 [10, 140] (FREQ_ARGS 390) :: decode [110, 5] :=
  claim_encasing_bracket_decode 390 [10, 140] [110, 5] (by decide) (by decide)

/-- Claim C5: when all three DIV operands name declared Number-typed
variables, execution raises DivideByZero exactly when the right operand
TOKEN's value is 0 (line 225 compares the Frequency itself, hence the
token identity, to 0), and the check precedes the division: the iff holds
whatever the stored values are, and in the error case the handler returns
without touching the destination (errors carry no state update). -/
theorem claim_div_zero_token_guard (s : MachineState) (d l r : ℚ)
    (vd vl vr : Variable)
    (hd : tblGet s.symbol_table d = some vd)
    (hl : tblGet s.symbol_table l = some vl)
    (hr : tblGet s.symbol_table r = some vr)
    (htd : vd.type = VariableType.NUMBER)
    (htl : vl.type = VariableType.NUMBER)
    (htr : vr.type = VariableType.NUMBER) :
    execute_div (Action.mk FREQ_DIV [d, l, r] 3) s = Except.error Err.DivideByZero ↔
      r = 0 := by
  unfold execute_div
  simp only [List.getD_cons_zero, List.getD_cons_succ]
  rw [hd, hl, hr]
  dsimp only
  rw [if_neg (by simp [htd, htl, htr])]
  constructor
  · intro h
    by_contra hz
    rw [if_neg hz] at h
    rcases hpv : pyDivVal vl.value vr.value with x | e
    · rw [hpv] at h
      simp at h
      rw [h] at hpv
      exact pyDivVal_ne_dbz vl.value vr.value hpv
    · rw [hpv] at h
      simp at h
  · intro h
    rw [if_pos h]

/-- Witness for C5: a concrete table where the right operand is the
variable named 0, holding the nonzero number 5; the guard fires. -/
theorem claim_div_zero_token_guard_witness :
    (execute_div (Action.mk FREQ_DIV [1, 2, 0] 3)
        (MachineState.mk
          [(1, Variable.mk 1 VariableType.NUMBER (PyVal.num 6)),
           (2, Variable.mk 2 VariableType.NUMBER (PyVal.num 3)),
           (0, Variable.mk 0 VariableType.NUMBER (PyVal.num 5))] [] []) =
      Except.error Err.DivideByZero) ↔ (0 : ℚ) = 0 :=
  claim_div_zero_token_guard _ 1 2 0
    (Variable.mk 1 VariableType.NUMBER (PyVal.num 6))
    (Variable.mk 2 VariableType.NUMBER (PyVal.num 3))
    (Variable.mk 0 VariableType.NUMBER (PyVal.num 5))
    rfl rfl rfl rfl rfl rfl

/-- Claim C6: an Instruction whose post-resolution operand count is below
its required arity fails Action.is_valid and the run aborts with the
fatal ArityError immediately, whatever instructions follow — none of them
is resolved or executed. -/
theorem claim_arity_error_halts (s : MachineState) (a : Action) (rest : List Action)
    (h : (resolveAction s.symbol_table a).arguments.length < a.req_arguments) :
    (resolveAction s.symbol_table a).is_valid = false ∧
      run (a :: rest) s = Except.error Err.ArityError := by
  have hv : (resolveAction s.symbol_table a).is_valid = false := by
    have hr : (resolveAction s.symbol_table a).req_arguments = a.req_arguments := rfl
    simp [Action.is_valid, hr]
    omega
  have hs : step a s = Except.error Err.ArityError := by
    rw [step, if_pos (by simp [hv])]
  refine ⟨hv, ?_⟩
  rw [run, hs]

/-- Witness for C6: a PRINT with no operands aborts a two-instruction
sequence. -/
theorem claim_arity_error_halts_witness :
    (resolveAction (initState []).symbol_table (Action.mk FREQ_PRINT [] 1)).is_valid = false ∧
      run [Action.mk FREQ_PRINT [] 1, Action.mk FREQ_PRINT [] 1] (initState []) =
        Except.error Err.ArityError :=
  claim_arity_error_halts (initState []) (Action.mk FREQ_PRINT [] 1)
    [Action.mk FREQ_PRINT [] 1] (by decide)

/-- Claim C7: for a non-encasing opcode, the Resolver's final operand list
is exactly the first req resolvable raw operands in order (a raw operand
is resolvable when it is a table key, or always when ignore_undefined is
false); everything past the req-th resolvable operand is discarded. -/
theorem claim_resolver_truncates_nonencasing (st : List (ℚ × Variable)) (ig : Bool)
    (freq : ℚ) (req : ℕ) (args : List ℚ) (henc : isEncasing freq = false) :
    parse_arguments st ig freq req args =
      ((args.filter fun a => tblMem st a || !ig).take req) := by
  have h := parse_arguments_aux_filter st ig freq req henc args 0
  simpa using h

/-- Witness for C7: ADD (arity 3) with five raw operands, one of them
undefined, keeps the first three defined ones. -/
theorem claim_resolver_truncates_nonencasing_witness :
    parse_arguments [(1, Variable.mk 1 VariableType.NUMBER (PyVal.num 0))]
        true FREQ_ADD 3 [3, 1, 1, 1, 1] =
      (([3, 1, 1, 1, 1].filter fun a =>
          tblMem [(1, Variable.mk 1 VariableType.NUMBER (PyVal.num 0))] a || !true).take 3) :=
  claim_resolver_truncates_nonencasing _ true FREQ_ADD 3 [3, 1, 1, 1, 1] (by decide)

/-- Claim C8: among the twelve recognized opcodes, main's resolution
policy keeps undefined names (ignore_undefined false) exactly for
VAR_INIT, IMMEDIATE, STR_DEF and FUNC_DEF, and drops them
(ignore_undefined true) for the eight others. -/
theorem claim_ignore_undefined_policy (v : ℚ) (hv : isActionFrequency v = true) :
    mainIgnoreUndefined v = false ↔
      (v = FREQ_VAR_INIT ∨ v = FREQ_IMMEDIATE ∨ v = FREQ_STR_DEF ∨ v = FREQ_FUNC_DEF) := by
  have h12 := hv
  simp only [isActionFrequency, Bool.or_eq_true, decide_eq_true_eq] at h12
  rcases h12 with ((((((((((h | h) | h) | h) | h) | h) | h) | h) | h) | h) | h) | h <;>
    subst h <;> decide

/-- Witness for C8: ADD runs with ignore_undefined true. -/
theorem claim_ignore_undefined_policy_witness :
    mainIgnoreUndefined FREQ_ADD = false ↔
      (FREQ_ADD = FREQ_VAR_INIT ∨ FREQ_ADD = FREQ_IMMEDIATE ∨
        FREQ_ADD = FREQ_STR_DEF ∨ FREQ_ADD = FREQ_FUNC_DEF) :=
  claim_ignore_undefined_policy FREQ_ADD (by decide)

/-- Claim C9: on stream 700, 10, 50, 10, 42, 110, 10 from the empty table,
VAR_INIT declares variable 10 as Number 0; IMMEDIATE stores the literal
token value 42 into it; PRINT then emits one standard-output line holding
the Number's textual form "42.0"; the run completes successfully (exit
status 0). -/
theorem claim_example_stream_roundtrip :
    runProgram [700, 10] [] =
      Except.ok (MachineState.mk
        [(10, Variable.mk 10 VariableType.NUMBER (PyVal.num 0))] [] []) ∧
    runProgram [700, 10, 50, 10, 42] [] =
      Except.ok (MachineState.mk
        [(10, Variable.mk 10 VariableType.NUMBER (PyVal.num 42))] [] []) ∧
    runProgram [700, 10, 50, 10, 42, 110, 10] [] =
      Except.ok (MachineState.mk
        [(10, Variable.mk 10 VariableType.NUMBER (PyVal.num 42))] [] ["42.0"]) :=
  ⟨rfl, rfl, rfl⟩

/-- Claim C10: for an instruction whose opcode resolves with
ignore_undefined true (required arity taken from FREQ_ARGS, as the
decoder sets it), resolution immediately followed by execution can never
fail with a missing-key lookup: every operand surviving resolution names
a symbol-table entry, so step never returns KeyError. -/
theorem claim_resolved_operands_defined (a : Action) (s : MachineState)
    (hig : mainIgnoreUndefined a.frequency = true)
    (hreq : a.req_arguments = FREQ_ARGS a.frequency) :
    step a s ≠ Except.error Err.KeyError := by
  rw [step]
  by_cases hv : (resolveAction s.symbol_table a).is_valid = true
  · rw [if_neg (by simp [hv])]
    refine dispatch_ne_keyerror _ s hig ?_ ?_
    · intro x hx
      have he : (resolveAction s.symbol_table a).arguments =
          parse_arguments s.symbol_table (mainIgnoreUndefined a.frequency) a.frequency
            a.req_arguments a.arguments := rfl
      rw [he, hig] at hx
      exact parse_arguments_aux_all_mem s.symbol_table a.frequency a.req_arguments
        a.arguments 0 x hx
    · have h1 : a.req_arguments ≤ (resolveAction s.symbol_table a).arguments.length := by
        simpa [Action.is_valid] using hv
      rw [hreq] at h1
      exact h1
  · rw [if_pos (by simp [hv])]
    simp

/-- Witness for C10: PRINT naming an undeclared variable on the empty
table; the operand is dropped, the arity check fires, and no KeyError is
possible. -/
theorem claim_resolved_operands_defined_witness :
    step (Action.mk FREQ_PRINT [5] 1) (initState []) ≠ Except.error Err.KeyError :=
  claim_resolved_operands_defined (Action.mk FREQ_PRINT [5] 1) (initState [])
    (by decide) (by decide)

end Musolang
